import Mathlib

/-!
Verification of the PaddleOCR-MCP integration layer.

This development gives a shallow embedding of the pure computational core of
`paddleocr_cli/mcp_server.py` and `paddleocr_cli/main.py`:

* Python floats are modelled as rationals (`ℚ`); `int(x)` (truncation toward
  zero) is `pyInt`.
* Python strings are Lean `String`s; `str.strip` and `str.lower` are modelled
  by the kernel-computable `pyStrip` / `pyLower` (ASCII whitespace/letters,
  which covers every string the code manipulates).
* The duck-typed OCR result objects (`extract_ocr_data` probes `.get`,
  `dict`, and attribute access, all extracting the same three fields) are
  modelled by a single record `OcrResult`; the normalisation of `rec_texts`
  follows the source line by line.
* Effectful parts of the MCP `ocr_image` handler (file existence, image
  opening, OCR invocation, temp-file deletion) are embedded by explicit
  environments of `Except` outcomes; `try`/`except`/`finally` becomes
  explicit propagation, exactly following the source's control flow.
* `random.choices` in `generate_ref` is modelled by an arbitrary supply of
  chosen characters, and the ref-id tree construction is parameterised by a
  supply `refs : ℕ → String` consumed in source call order.
-/

/-- Python `int(x)` applied to a float/rational: truncation toward zero. -/
def pyInt (q : ℚ) : ℤ := if q < 0 then ⌈q⌉ else ⌊q⌋

theorem pyInt_of_nonneg (q : ℚ) (h : 0 ≤ q) : pyInt q = ⌊q⌋ := by
  simp [pyInt, not_lt.mpr h]

theorem pyInt_intCast (z : ℤ) : pyInt (z : ℚ) = z := by
  rcases lt_or_le z 0 with hz | hz
  · simp [pyInt, hz, Int.cast_lt_zero.mpr hz]
  · rw [pyInt_of_nonneg _ (by exact_mod_cast hz)]
    exact Int.floor_intCast z

/-- Python `str.strip()` (ASCII whitespace). -/
def pyStrip (s : String) : String :=
  String.mk (((s.data.dropWhile Char.isWhitespace).reverse.dropWhile Char.isWhitespace).reverse)

/-- Python `str.lower()` (ASCII letters). -/
def pyLower (s : String) : String := String.mk (s.data.map Char.toLower)

/-- Python `pat in s` substring test. -/
def py_contains (s pat : String) : Bool := decide (pat.data <:+: s.data)

/-- Python `pathlib.Path(s).name`: the final path component. -/
def pathName (s : String) : String :=
  String.mk ((s.data.reverse.takeWhile (fun c => c ≠ '/')).reverse)

/-- Result of `convert_bbox_to_original`: the dict with keys
`x_min`/`y_min`/`x_max`/`y_max` (mcp_server.py lines 111-128). -/
structure BBoxDict where
  x_min : ℤ
  y_min : ℤ
  x_max : ℤ
  y_max : ℤ
deriving DecidableEq

/-- mcp_server.py lines 94-128: rescale a `[x_min, y_min, x_max, y_max]` box
from preprocessed-image coordinates back to original-image coordinates.
Out-of-range indexing cannot occur at the call sites (they guard
`len(bbox) >= 4`); `getD _ 0` mirrors the guarded `bbox[i]` accesses. -/
def convert_bbox_to_original (bbox : List ℚ)
    (original_size preprocessed_size : ℕ × ℕ) : BBoxDict :=
  if original_size = preprocessed_size then
    { x_min := pyInt (bbox.getD 0 0), y_min := pyInt (bbox.getD 1 0),
      x_max := pyInt (bbox.getD 2 0), y_max := pyInt (bbox.getD 3 0) }
  else
    let scale_x : ℚ := (original_size.1 : ℚ) / (preprocessed_size.1 : ℚ)
    let scale_y : ℚ := (original_size.2 : ℚ) / (preprocessed_size.2 : ℚ)
    { x_min := pyInt (bbox.getD 0 0 * scale_x), y_min := pyInt (bbox.getD 1 0 * scale_y),
      x_max := pyInt (bbox.getD 2 0 * scale_x), y_max := pyInt (bbox.getD 3 0 * scale_y) }

/-- mcp_server.py lines 131-155: rescale every `[x, y]` polygon point from
preprocessed-image coordinates back to original-image coordinates. -/
def convert_polygon_to_original (polygon : List (List ℚ))
    (original_size preprocessed_size : ℕ × ℕ) : List (List ℤ) :=
  if original_size = preprocessed_size then
    polygon.map (fun p => [pyInt (p.getD 0 0), pyInt (p.getD 1 0)])
  else
    let scale_x : ℚ := (original_size.1 : ℚ) / (preprocessed_size.1 : ℚ)
    let scale_y : ℚ := (original_size.2 : ℚ) / (preprocessed_size.2 : ℚ)
    polygon.map (fun p => [pyInt (p.getD 0 0 * scale_x), pyInt (p.getD 1 0 * scale_y)])

/-- C1: the coordinate-rescaling functions satisfy the contract of spec
section 4.7.  If the original size `(W, H)` equals the preprocessed size
`(W', H')`, coordinates are returned unchanged except for truncation to
integers; otherwise every x-coordinate is multiplied by `scale_x = W / W'`
and every y-coordinate by `scale_y = H / H'` and the result is truncated
toward zero to an integer; and the very same rule is applied to the four box
corners and to polygon points (the polygon conversion of a point agrees
componentwise with the box conversion). -/
theorem convert_coords_rescaling_contract (bbox : List ℚ) (polygon : List (List ℚ))
    (W H Wp Hp : ℕ) :
    (((W, H) : ℕ × ℕ) = (Wp, Hp) →
      convert_bbox_to_original bbox (W, H) (Wp, Hp) =
        { x_min := pyInt (bbox.getD 0 0), y_min := pyInt (bbox.getD 1 0),
          x_max := pyInt (bbox.getD 2 0), y_max := pyInt (bbox.getD 3 0) } ∧
      convert_polygon_to_original polygon (W, H) (Wp, Hp) =
        polygon.map (fun p => [pyInt (p.getD 0 0), pyInt (p.getD 1 0)])) ∧
    (((W, H) : ℕ × ℕ) ≠ (Wp, Hp) →
      convert_bbox_to_original bbox (W, H) (Wp, Hp) =
        { x_min := pyInt (bbox.getD 0 0 * ((W : ℚ) / (Wp : ℚ))),
          y_min := pyInt (bbox.getD 1 0 * ((H : ℚ) / (Hp : ℚ))),
          x_max := pyInt (bbox.getD 2 0 * ((W : ℚ) / (Wp : ℚ))),
          y_max := pyInt (bbox.getD 3 0 * ((H : ℚ) / (Hp : ℚ))) } ∧
      convert_polygon_to_original polygon (W, H) (Wp, Hp) =
        polygon.map (fun p => [pyInt (p.getD 0 0 * ((W : ℚ) / (Wp : ℚ))),
                               pyInt (p.getD 1 0 * ((H : ℚ) / (Hp : ℚ)))])) ∧
    (∀ x y : ℚ, convert_polygon_to_original [[x, y]] (W, H) (Wp, Hp) =
      [[(convert_bbox_to_original [x, y, x, y] (W, H) (Wp, Hp)).x_min,
        (convert_bbox_to_original [x, y, x, y] (W, H) (Wp, Hp)).y_min]]) := by
  refine ⟨fun h => ?_, fun h => ?_, fun x y => ?_⟩
  · rw [convert_bbox_to_original, if_pos h, convert_polygon_to_original, if_pos h]
    exact ⟨rfl, rfl⟩
  · rw [convert_bbox_to_original, if_neg h, convert_polygon_to_original, if_neg h]
    exact ⟨rfl, rfl⟩
  · by_cases h : ((W, H) : ℕ × ℕ) = (Wp, Hp)
    · rw [convert_bbox_to_original, if_pos h, convert_polygon_to_original, if_pos h]
      rfl
    · rw [convert_bbox_to_original, if_neg h, convert_polygon_to_original, if_neg h]
      rfl

theorem convert_coords_rescaling_contract_witness :
    (((4, 2) : ℕ × ℕ) ≠ (2, 2)) ∧
    convert_bbox_to_original [1, 2, 3, 4] (4, 2) (2, 2) =
      { x_min := pyInt ((1 : ℚ) * ((4 : ℚ) / (2 : ℚ))),
        y_min := pyInt ((2 : ℚ) * ((2 : ℚ) / (2 : ℚ))),
        x_max := pyInt ((3 : ℚ) * ((4 : ℚ) / (2 : ℚ))),
        y_max := pyInt ((4 : ℚ) * ((2 : ℚ) / (2 : ℚ))) } :=
  ⟨by decide,
   by
    have h := ((convert_coords_rescaling_contract [1, 2, 3, 4] [] 4 2 2 2).2.1
      (by decide)).1
    simpa using h⟩

/-- mcp_server.py line 46. -/
def MAX_IMAGE_SIZE : ℕ := 1920

/-- mcp_server.py lines 366-379: the dimension computation of the automatic
downsampling step of `preprocess_image` (the resize is performed only when a
dimension exceeds `MAX_IMAGE_SIZE`; the non-driving dimension is
`int(other * (MAX_IMAGE_SIZE / driving))`).  `Int.toNat` casts the
(nonnegative) Python int back to a PIL dimension. -/
def preprocess_image_resize (width height : ℕ) : ℕ × ℕ :=
  if width > MAX_IMAGE_SIZE ∨ height > MAX_IMAGE_SIZE then
    if width > height then
      (MAX_IMAGE_SIZE, (pyInt ((height : ℚ) * ((MAX_IMAGE_SIZE : ℚ) / (width : ℚ)))).toNat)
    else
      ((pyInt ((width : ℚ) * ((MAX_IMAGE_SIZE : ℚ) / (height : ℚ)))).toNat, MAX_IMAGE_SIZE)
  else (width, height)

theorem pyInt_scale_eq_floor (a b c : ℕ) :
    pyInt ((a : ℚ) * ((b : ℚ) / (c : ℚ))) = ⌊(a : ℚ) * (b : ℚ) / (c : ℚ)⌋ := by
  rw [pyInt_of_nonneg _ (by positivity), mul_div_assoc]

/-- C2: for every image handed to the MCP preprocessing step whose larger
dimension exceeds the configured limit `L = 1920`, the output's driving
(larger) dimension equals exactly `L` and the other dimension is the integer
truncation of `other * L / max(width, height)`; images already within the
limit keep their dimensions unchanged. -/
theorem preprocess_image_resize_spec (width height : ℕ) :
    (max width height ≤ MAX_IMAGE_SIZE →
      preprocess_image_resize width height = (width, height)) ∧
    (MAX_IMAGE_SIZE < max width height →
      max (preprocess_image_resize width height).1 (preprocess_image_resize width height).2 =
        MAX_IMAGE_SIZE ∧
      (height < width →
        preprocess_image_resize width height =
          (MAX_IMAGE_SIZE, ⌊(height : ℚ) * (MAX_IMAGE_SIZE : ℚ) / (width : ℚ)⌋.toNat)) ∧
      (width ≤ height →
        preprocess_image_resize width height =
          (⌊(width : ℚ) * (MAX_IMAGE_SIZE : ℚ) / (height : ℚ)⌋.toNat, MAX_IMAGE_SIZE))) := by
  constructor
  · intro hle
    rw [preprocess_image_resize, if_neg]
    intro hc
    rcases hc with hw | hh
    · exact absurd (le_trans (le_max_left width height) hle) (not_le.mpr hw)
    · exact absurd (le_trans (le_max_right width height) hle) (not_le.mpr hh)
  · intro hgt
    have hcond : width > MAX_IMAGE_SIZE ∨ height > MAX_IMAGE_SIZE := by
      rcases max_cases width height with ⟨hm, _⟩ | ⟨hm, _⟩
      · exact Or.inl (hm ▸ hgt)
      · exact Or.inr (hm ▸ hgt)
    by_cases hwh : width > height
    · have hw : MAX_IMAGE_SIZE < width := by
        rcases hcond with h | h
        · exact h
        · exact lt_trans h hwh
      have hres : preprocess_image_resize width height =
          (MAX_IMAGE_SIZE, ⌊(height : ℚ) * (MAX_IMAGE_SIZE : ℚ) / (width : ℚ)⌋.toNat) := by
        rw [preprocess_image_resize, if_pos hcond, if_pos hwh, pyInt_scale_eq_floor]
      refine ⟨?_, fun _ => hres, fun hcontra => absurd hwh (not_lt.mpr hcontra)⟩
      rw [hres]
      have hflt : ⌊(height : ℚ) * (MAX_IMAGE_SIZE : ℚ) / (width : ℚ)⌋ < (MAX_IMAGE_SIZE : ℤ) := by
        rw [Int.floor_lt]
        rw [div_lt_iff₀ (by exact_mod_cast lt_of_le_of_lt (Nat.zero_le _) hw)]
        have hhw : (height : ℚ) < (width : ℚ) := by exact_mod_cast hwh
        have hL : (0 : ℚ) < (MAX_IMAGE_SIZE : ℚ) := by norm_num [MAX_IMAGE_SIZE]
        push_cast
        nlinarith
      have : ⌊(height : ℚ) * (MAX_IMAGE_SIZE : ℚ) / (width : ℚ)⌋.toNat ≤ MAX_IMAGE_SIZE := by
        omega
      simpa using Nat.max_eq_left this
    · have hh : MAX_IMAGE_SIZE < height := by
        rcases hcond with h | h
        · exact lt_of_lt_of_le h (not_lt.mp hwh)
        · exact h
      have hres : preprocess_image_resize width height =
          (⌊(width : ℚ) * (MAX_IMAGE_SIZE : ℚ) / (height : ℚ)⌋.toNat, MAX_IMAGE_SIZE) := by
        rw [preprocess_image_resize, if_pos hcond, if_neg hwh, pyInt_scale_eq_floor]
      refine ⟨?_, fun hcontra => absurd hcontra hwh, fun _ => hres⟩
      rw [hres]
      have hfle : ⌊(width : ℚ) * (MAX_IMAGE_SIZE : ℚ) / (height : ℚ)⌋ ≤ (MAX_IMAGE_SIZE : ℤ) := by
        have hxle : (width : ℚ) * (MAX_IMAGE_SIZE : ℚ) / (height : ℚ) ≤ (MAX_IMAGE_SIZE : ℚ) := by
          rw [div_le_iff₀ (by exact_mod_cast lt_of_le_of_lt (Nat.zero_le _) hh)]
          have hwle : (width : ℚ) ≤ (height : ℚ) := by exact_mod_cast not_lt.mp hwh
          have hL : (0 : ℚ) ≤ (MAX_IMAGE_SIZE : ℚ) := by norm_num
          nlinarith
        have := Int.floor_le_floor hxle
        simpa using this
      have : ⌊(width : ℚ) * (MAX_IMAGE_SIZE : ℚ) / (height : ℚ)⌋.toNat ≤ MAX_IMAGE_SIZE := by
        omega
      simpa using Nat.max_eq_right this

theorem preprocess_image_resize_spec_witness :
    (MAX_IMAGE_SIZE < max 3000 1000) ∧
    preprocess_image_resize 3000 1000 =
      (MAX_IMAGE_SIZE, ⌊(1000 : ℚ) * (MAX_IMAGE_SIZE : ℚ) / (3000 : ℚ)⌋.toNat) :=
  ⟨by decide, ((preprocess_image_resize_spec 3000 1000).2 (by decide)).2.1 (by decide)⟩

/-- The `rec_texts` value carried by a duck-typed OCR result object, before
the normalisation in `extract_ocr_data` (mcp_server.py lines 83-89). -/
inductive PyRecTexts where
  | absent
  | pyNone
  | strv (s : String)
  | listv (ts : List String)
deriving DecidableEq

/-- One OCRResult object.  The three access styles probed by
`extract_ocr_data` (`.get`, `dict` subscript, attribute access) all extract
the same three fields, so a single record models them. -/
structure OcrResult where
  rec_texts : PyRecTexts
  dt_polys : Option (List (List (List ℚ)))
  rec_boxes : Option (List (List ℚ))
deriving DecidableEq

/-- mcp_server.py lines 56-91: extract `(rec_texts, dt_polys, rec_boxes)`
and normalise `rec_texts` to a list. -/
def extract_ocr_data (r : OcrResult) :
    List String × Option (List (List (List ℚ))) × Option (List (List ℚ)) :=
  let rec_texts : List String :=
    match r.rec_texts with
    | .absent => []
    | .pyNone => []
    | .strv s => if pyStrip s ≠ "" then [s] else []
    | .listv ts => ts
  (rec_texts, r.dt_polys, r.rec_boxes)

/-- One `- {text}\n` write (mcp_server.py line 557, main.py line 169). -/
def markdown_bullet (text : String) : String := "- " ++ text ++ "\n"

/-- mcp_server.py line 559. -/
def MCP_NO_TEXT_LINE : String := "- No text detected\n"

/-- main.py lines 171/173. -/
def CLI_NO_TEXT_LINE : String := "*No text detected in image.*\n"

/-- mcp_server.py lines 534-546: flatten the per-page `rec_texts`, keeping
strings that are truthy and truthy after `strip()`. -/
def mcp_detected_texts (result : List OcrResult) : List String :=
  result.flatMap (fun r =>
    (extract_ocr_data r).1.filter (fun t => !(t == "") && !(pyStrip t == "")))

/-- mcp_server.py lines 549-559: the sequence of strings written to the
markdown file by the `ocr_image` handler. -/
def mcp_markdown_lines (result : List OcrResult) (image_path language : String) :
    List String :=
  ["# OCR Result\n\n",
   "**Source Image:** `" ++ image_path ++ "`\n\n",
   "**Language:** `" ++ language ++ "`\n\n",
   "---\n\n"] ++
  (if mcp_detected_texts result ≠ [] then (mcp_detected_texts result).map markdown_bullet
   else [MCP_NO_TEXT_LINE])

/-- main.py lines 157-175: the markdown lines produced by the CLI
`image_to_markdown`.  A page is its `rec_texts` list (the CLI reads
`result[0].get('rec_texts', [])` without further normalisation). -/
def image_to_markdown_lines (result : List (List String)) (image_path : String) :
    List String :=
  ["# OCR Result\n\n",
   "**Source Image:** `" ++ image_path ++ "`\n\n",
   "---\n\n"] ++
  (match result with
   | [] => [CLI_NO_TEXT_LINE]
   | page :: _ => if page ≠ [] then page.map markdown_bullet else [CLI_NO_TEXT_LINE])

/-- A markdown bullet line: a line beginning `- `. -/
def is_bullet_line (s : String) : Bool := s.data.take 2 == ['-', ' ']

theorem data_take_two_append2 (a b c : String) (h : 2 ≤ a.data.length) :
    ((a ++ b) ++ c).data.take 2 = a.data.take 2 := by
  rw [String.data_append, String.data_append, List.append_assoc,
      List.take_append_of_le_length h]

theorem is_bullet_line_bullet (t : String) : is_bullet_line (markdown_bullet t) = true := by
  rw [markdown_bullet, is_bullet_line, data_take_two_append2 _ _ _ (by decide)]
  decide

theorem markdown_bullet_ne_cli_placeholder (t : String) :
    markdown_bullet t ≠ CLI_NO_TEXT_LINE := by
  intro h
  have h2 := congrArg (fun s => s.data.take 2) h
  simp only [markdown_bullet, CLI_NO_TEXT_LINE] at h2
  rw [data_take_two_append2 _ _ _ (by decide)] at h2
  exact absurd h2 (by decide)

theorem source_line_not_bullet (p : String) :
    is_bullet_line ("**Source Image:** `" ++ p ++ "`\n\n") = false := by
  rw [is_bullet_line, data_take_two_append2 _ _ _ (by decide)]
  decide

theorem language_line_not_bullet (l : String) :
    is_bullet_line ("**Language:** `" ++ l ++ "`\n\n") = false := by
  rw [is_bullet_line, data_take_two_append2 _ _ _ (by decide)]
  decide

theorem source_line_ne_cli_placeholder (p : String) :
    ("**Source Image:** `" ++ p ++ "`\n\n") ≠ CLI_NO_TEXT_LINE := by
  intro h
  have h2 := congrArg (fun s => s.data.take 2) h
  simp only [CLI_NO_TEXT_LINE] at h2
  rw [data_take_two_append2 _ _ _ (by decide)] at h2
  exact absurd h2 (by decide)

/-- C3 counterexample: the CLI markdown generator applies no trimming
filter.  On the one-page result `[[" "]]` zero strings are non-empty after
trimming, yet the generated document contains one bullet (for the
whitespace-only string) and no "No text detected" placeholder line at all,
contradicting the claim for this input. -/
theorem image_to_markdown_untrimmed_bullet_cex :
    (([" "] : List String).filter (fun t => !(pyStrip t == "")) = []) ∧
    (image_to_markdown_lines [[" "]] "img.png").filter is_bullet_line =
      [markdown_bullet " "] ∧
    (image_to_markdown_lines [[" "]] "img.png").filter
      (fun s => py_contains s "No text detected") = [] := by
  refine ⟨by decide, by decide, by decide⟩

theorem header_line_one_not_bullet : is_bullet_line "# OCR Result\n\n" = false := by decide

theorem hr_line_not_bullet : is_bullet_line "---\n\n" = false := by decide

theorem mcp_header_no_bullets (p l : String) :
    (["# OCR Result\n\n", "**Source Image:** `" ++ p ++ "`\n\n",
      "**Language:** `" ++ l ++ "`\n\n", "---\n\n"]).filter is_bullet_line = [] := by
  simp [List.filter_cons, header_line_one_not_bullet, source_line_not_bullet,
    language_line_not_bullet, hr_line_not_bullet]

theorem cli_header_no_bullets (p : String) :
    (["# OCR Result\n\n", "**Source Image:** `" ++ p ++ "`\n\n", "---\n\n"]).filter
      is_bullet_line = [] := by
  simp [List.filter_cons, header_line_one_not_bullet, source_line_not_bullet,
    hr_line_not_bullet]

theorem filter_bullet_map (texts : List String) :
    (texts.map markdown_bullet).filter is_bullet_line = texts.map markdown_bullet := by
  apply List.filter_eq_self.mpr
  intro a ha
  obtain ⟨t, _, rfl⟩ := List.mem_map.mp ha
  exact is_bullet_line_bullet t

theorem count_cli_placeholder_map (texts : List String) :
    (texts.map markdown_bullet).count CLI_NO_TEXT_LINE = 0 := by
  rw [List.count_eq_zero]
  intro hmem
  obtain ⟨t, _, ht⟩ := List.mem_map.mp hmem
  exact markdown_bullet_ne_cli_placeholder t ht

theorem cli_header_count (p : String) :
    (["# OCR Result\n\n", "**Source Image:** `" ++ p ++ "`\n\n", "---\n\n"]).count
      CLI_NO_TEXT_LINE = 0 := by
  rw [List.count_eq_zero]
  intro h
  simp only [List.mem_cons, List.not_mem_nil, or_false] at h
  rcases h with h | h | h
  · exact absurd h (by decide)
  · exact source_line_ne_cli_placeholder p h.symm
  · exact absurd h (by decide)

theorem image_to_markdown_lines_cons (page : List String) (rest : List (List String))
    (ip : String) :
    image_to_markdown_lines (page :: rest) ip =
      ["# OCR Result\n\n", "**Source Image:** `" ++ ip ++ "`\n\n", "---\n\n"] ++
      (if page ≠ [] then page.map markdown_bullet else [CLI_NO_TEXT_LINE]) := rfl

theorem image_to_markdown_lines_nil (ip : String) :
    image_to_markdown_lines [] ip =
      ["# OCR Result\n\n", "**Source Image:** `" ++ ip ++ "`\n\n", "---\n\n"] ++
      [CLI_NO_TEXT_LINE] := rfl

/-- C3 (amended): the MCP handler's markdown contains exactly one bullet
line per detected text string that is non-empty after trimming, in OCR
order across all pages, and when zero such strings remain its only bullet
line is the single placeholder `- No text detected` (itself rendered as a
bullet).  The CLI generator instead emits one bullet per detected string of
the first page only, with no trimming filter, and emits its placeholder
`*No text detected in image.*` exactly when the result list is empty or the
first page's text list is empty. -/
theorem markdown_bullets_spec (result : List OcrResult) (pages : List (List String))
    (image_path language : String) :
    (mcp_detected_texts result ≠ [] →
      (mcp_markdown_lines result image_path language).filter is_bullet_line =
        (mcp_detected_texts result).map markdown_bullet) ∧
    (mcp_detected_texts result = [] →
      (mcp_markdown_lines result image_path language).filter is_bullet_line =
        [MCP_NO_TEXT_LINE]) ∧
    (∀ page rest, pages = page :: rest → page ≠ [] →
      (image_to_markdown_lines pages image_path).filter is_bullet_line =
        page.map markdown_bullet ∧
      (image_to_markdown_lines pages image_path).count CLI_NO_TEXT_LINE = 0) ∧
    ((pages = [] ∨ (∃ rest, pages = [] :: rest)) →
      (image_to_markdown_lines pages image_path).filter is_bullet_line = [] ∧
      (image_to_markdown_lines pages image_path).count CLI_NO_TEXT_LINE = 1) := by
  refine ⟨fun hne => ?_, fun hemp => ?_, fun page rest hp hpage => ?_, fun hc => ?_⟩
  · rw [mcp_markdown_lines, if_pos hne, List.filter_append, mcp_header_no_bullets,
      filter_bullet_map, List.nil_append]
  · rw [mcp_markdown_lines, if_neg (by simp [hemp]), List.filter_append,
      mcp_header_no_bullets, List.nil_append]
    decide
  · subst hp
    rw [image_to_markdown_lines_cons, if_pos hpage]
    constructor
    · rw [List.filter_append, cli_header_no_bullets, filter_bullet_map, List.nil_append]
    · rw [List.count_append, cli_header_count, count_cli_placeholder_map]
  · rcases hc with h | ⟨rest, h⟩ <;> subst h
    · rw [image_to_markdown_lines_nil]
      constructor
      · rw [List.filter_append, cli_header_no_bullets, List.nil_append]
        decide
      · rw [List.count_append, cli_header_count]
        decide
    · rw [image_to_markdown_lines_cons, if_neg (by simp)]
      constructor
      · rw [List.filter_append, cli_header_no_bullets, List.nil_append]
        decide
      · rw [List.count_append, cli_header_count]
        decide

theorem markdown_bullets_spec_witness :
    (mcp_detected_texts [⟨.listv ["Hello", "World"], none, none⟩] ≠ []) ∧
    (mcp_markdown_lines [⟨.listv ["Hello", "World"], none, none⟩] "img.png" "ch").filter
        is_bullet_line =
      (mcp_detected_texts [⟨.listv ["Hello", "World"], none, none⟩]).map markdown_bullet :=
  ⟨by decide,
   (markdown_bullets_spec [⟨.listv ["Hello", "World"], none, none⟩] [] "img.png" "ch").1
     (by decide)⟩

/-- The `bbox` value attached to a snapshot text element: either the
rectangular dict (mcp_server.py lines 243-252) or the `polygon` list
(lines 286-292). -/
inductive BBoxInfo where
  | box (b : BBoxDict)
  | poly (points : List (List ℤ))
deriving DecidableEq

/-- mcp_server.py lines 228-254: try to take the axis-aligned box of unit
`idx` from `rec_boxes`.  The `try`/`except` is modelled by the very bounds
checks the source performs (`idx < len(rec_boxes)`, `len(bbox) >= 4`);
other malformedness is not representable in the typed embedding. -/
def bbox_from_rec_boxes (idx : ℕ) (rec_boxes : Option (List (List ℚ)))
    (original_size preprocessed_size : Option (ℕ × ℕ)) : Option BBoxDict :=
  match rec_boxes with
  | none => none
  | some boxes =>
    if idx < boxes.length then
      let bbox := boxes.getD idx []
      if 4 ≤ bbox.length then
        match original_size, preprocessed_size with
        | some osz, some psz => some (convert_bbox_to_original bbox osz psz)
        | _, _ =>
          some { x_min := pyInt (bbox.getD 0 0), y_min := pyInt (bbox.getD 1 0),
                 x_max := pyInt (bbox.getD 2 0), y_max := pyInt (bbox.getD 3 0) }
      else none
    else none

/-- mcp_server.py lines 270-278: `int()`-truncate the first 4 points of a
polygon, skipping points with fewer than 2 coordinates. -/
def polygon_coords_of (poly : List (List ℚ)) : List (List ℤ) :=
  (poly.take 4).filterMap (fun p =>
    if 2 ≤ p.length then some [pyInt (p.getD 0 0), pyInt (p.getD 1 0)] else none)

/-- mcp_server.py lines 257-294: try to take a polygon for unit `idx` from
`dt_polys` (only attempted when no rectangular box was attached). -/
def bbox_from_dt_polys (idx : ℕ) (dt_polys : Option (List (List (List ℚ))))
    (original_size preprocessed_size : Option (ℕ × ℕ)) : Option (List (List ℤ)) :=
  match dt_polys with
  | none => none
  | some polys =>
    if idx < polys.length then
      let poly := polys.getD idx []
      if 4 ≤ poly.length then
        let polygon_coords := polygon_coords_of poly
        if polygon_coords.length = 4 then
          match original_size, preprocessed_size with
          | some osz, some psz =>
            some (convert_polygon_to_original
              (polygon_coords.map (fun p => p.map (fun z => (z : ℚ)))) osz psz)
          | _, _ => some polygon_coords
        else none
      else none
    else none

/-- The per-unit geometry attachment of mcp_server.py lines 226-294:
rectangular box first, polygon only if no box was attached, else nothing. -/
def unit_geometry (idx : ℕ) (rec_boxes : Option (List (List ℚ)))
    (dt_polys : Option (List (List (List ℚ))))
    (original_size preprocessed_size : Option (ℕ × ℕ)) : Option BBoxInfo :=
  match bbox_from_rec_boxes idx rec_boxes original_size preprocessed_size with
  | some b => some (.box b)
  | none =>
    match bbox_from_dt_polys idx dt_polys original_size preprocessed_size with
    | some pl => some (.poly pl)
    | none => none

/-- mcp_server.py lines 50-53: `generate_ref` concatenates the literal
prefix with 11 characters chosen by `random.choices` from the lowercase
letters and digits; the chosen characters are the argument. -/
def generate_ref (chosen : List Char) : String := "ref-" ++ String.mk chosen

/-- Does a string look like a generated reference id: the fixed literal
prefix `ref-` followed by 11 lowercase-alphanumeric characters. -/
def is_valid_ref (s : String) : Bool :=
  s.data.length == 15 && s.data.take 4 == ['r', 'e', 'f', '-'] &&
  (s.data.drop 4).all (fun c => c.isLower || c.isDigit)

/-- A node of the snapshot document: role, reference id, optional display
name, optional geometry, children (the nested dicts of
`generate_snapshot_format`). -/
inductive SnapshotNode where
  | mk (role : String) (ref : String) (name : Option String) (bbox : Option BBoxInfo)
      (children : List SnapshotNode)

def SnapshotNode.role : SnapshotNode → String
  | .mk r _ _ _ _ => r

def SnapshotNode.ref : SnapshotNode → String
  | .mk _ r _ _ _ => r

def SnapshotNode.name : SnapshotNode → Option String
  | .mk _ _ n _ _ => n

def SnapshotNode.bbox : SnapshotNode → Option BBoxInfo
  | .mk _ _ _ b _ => b

def SnapshotNode.children : SnapshotNode → List SnapshotNode
  | .mk _ _ _ _ c => c

/-- mcp_server.py lines 216-296: build the text elements of one result
container.  `idx` is the enumerate index (it advances on every text,
including skipped ones, and indexes the geometry arrays); `ctr` indexes the
ref supply and advances only when a ref is actually generated. -/
def build_text_elements (refs : ℕ → String) (rec_boxes : Option (List (List ℚ)))
    (dt_polys : Option (List (List (List ℚ))))
    (original_size preprocessed_size : Option (ℕ × ℕ)) :
    List String → ℕ → ℕ → List SnapshotNode × ℕ
  | [], _, ctr => ([], ctr)
  | text :: rest, idx, ctr =>
    if text = "" ∨ pyStrip text = "" then
      build_text_elements refs rec_boxes dt_polys original_size preprocessed_size
        rest (idx + 1) ctr
    else
      let element : SnapshotNode :=
        .mk "text" (refs ctr) (some (pyStrip text))
          (unit_geometry idx rec_boxes dt_polys original_size preprocessed_size) []
      let built := build_text_elements refs rec_boxes dt_polys original_size
        preprocessed_size rest (idx + 1) (ctr + 1)
      (element :: built.1, built.2)

/-- mcp_server.py lines 203-299: one result container per OCR result whose
`rec_texts` is truthy; the container is kept only if it received at least
one child.  The container's ref is generated before the children's. -/
def build_result_containers (refs : ℕ → String)
    (original_size preprocessed_size : Option (ℕ × ℕ)) :
    List OcrResult → ℕ → List SnapshotNode × ℕ
  | [], ctr => ([], ctr)
  | r :: rest, ctr =>
    let extracted := extract_ocr_data r
    if extracted.1 ≠ [] then
      let containerRef := refs ctr
      let elements := build_text_elements refs extracted.2.2 extracted.2.1
        original_size preprocessed_size extracted.1 0 (ctr + 1)
      let tail := build_result_containers refs original_size preprocessed_size
        rest elements.2
      if elements.1.isEmpty then (tail.1, tail.2)
      else
        (SnapshotNode.mk "generic" containerRef none none elements.1 :: tail.1, tail.2)
    else
      let tail := build_result_containers refs original_size preprocessed_size rest ctr
      (tail.1, tail.2)

/-- mcp_server.py lines 158-302: the snapshot tree (the root element of the
YAML list).  Refs are consumed in source call order: root, metadata
container, the two metadata leaves, then the result containers. -/
def generate_snapshot_format (ocr_results : List OcrResult)
    (image_path language : String)
    (original_size preprocessed_size : Option (ℕ × ℕ)) (refs : ℕ → String) :
    SnapshotNode :=
  let metadata : SnapshotNode :=
    .mk "generic" (refs 1) none none
      [.mk "text" (refs 2) (some ("Source Image: " ++ image_path)) none [],
       .mk "text" (refs 3) (some ("Language: " ++ language)) none []]
  let containers := build_result_containers refs original_size preprocessed_size
    ocr_results 4
  .mk "generic" (refs 0) (some ("OCR Result: " ++ pathName image_path)) none
    (metadata :: containers.1)

theorem kept_bool_eq_false_iff (t : String) :
    ((!(t == "") && !(pyStrip t == "")) = false) ↔ (t = "" ∨ pyStrip t = "") := by
  by_cases h1 : t = "" <;> by_cases h2 : pyStrip t = "" <;> simp [h1, h2]

theorem kept_bool_eq_true_iff (t : String) :
    ((!(t == "") && !(pyStrip t == "")) = true) ↔ ¬(t = "" ∨ pyStrip t = "") := by
  by_cases h1 : t = "" <;> by_cases h2 : pyStrip t = "" <;> simp [h1, h2]

theorem filterMap_if_all {α β : Type} (pred : α → Prop) [DecidablePred pred] (f : α → β)
    (l : List α) (h : ∀ a ∈ l, pred a) :
    (l.filterMap (fun a => if pred a then some (f a) else none)) = l.map f := by
  induction l with
  | nil => rfl
  | cons a l ih =>
    rw [List.filterMap_cons, List.map_cons, if_pos (h a (List.mem_cons_self a l))]
    rw [ih (fun b hb => h b (List.mem_cons_of_mem a hb))]

theorem build_text_elements_names (refs : ℕ → String) (rb : Option (List (List ℚ)))
    (dp : Option (List (List (List ℚ)))) (osz psz : Option (ℕ × ℕ)) :
    ∀ (texts : List String) (idx ctr : ℕ),
      (build_text_elements refs rb dp osz psz texts idx ctr).1.map SnapshotNode.name =
        (texts.filter (fun t => !(t == "") && !(pyStrip t == ""))).map
          (fun t => some (pyStrip t)) := by
  intro texts
  induction texts with
  | nil => intro idx ctr; rfl
  | cons t rest ih =>
    intro idx ctr
    by_cases h : t = "" ∨ pyStrip t = ""
    · rw [build_text_elements, if_pos h, List.filter_cons,
        if_neg (fun hb => ((kept_bool_eq_true_iff t).mp hb) h)]
      exact ih (idx + 1) ctr
    · rw [build_text_elements, if_neg h, List.filter_cons,
        if_pos ((kept_bool_eq_true_iff t).mpr h)]
      rw [List.map_cons, List.map_cons]
      refine congrArg₂ List.cons rfl ?_
      exact ih (idx + 1) (ctr + 1)

theorem build_text_elements_atoms (refs : ℕ → String) (rb : Option (List (List ℚ)))
    (dp : Option (List (List (List ℚ)))) (osz psz : Option (ℕ × ℕ)) :
    ∀ (texts : List String) (idx ctr : ℕ),
      ∀ el ∈ (build_text_elements refs rb dp osz psz texts idx ctr).1,
        (∃ n, el.ref = refs n) ∧ el.role = "text" ∧ el.children = [] := by
  intro texts
  induction texts with
  | nil => intro idx ctr el hel; exact absurd hel (List.not_mem_nil el)
  | cons t rest ih =>
    intro idx ctr el hel
    by_cases h : t = "" ∨ pyStrip t = ""
    · rw [build_text_elements, if_pos h] at hel
      exact ih (idx + 1) ctr el hel
    · rw [build_text_elements, if_neg h] at hel
      rcases List.mem_cons.mp hel with hel | hel
      · subst hel
        exact ⟨⟨ctr, rfl⟩, rfl, rfl⟩
      · exact ih (idx + 1) (ctr + 1) el hel

theorem build_result_containers_shape (refs : ℕ → String) (osz psz : Option (ℕ × ℕ)) :
    ∀ (results : List OcrResult) (ctr : ℕ),
      (build_result_containers refs osz psz results ctr).1.map
          (fun c => c.children.map SnapshotNode.name) =
        (results.filter (fun r => !((extract_ocr_data r).1.filter
            (fun t => !(t == "") && !(pyStrip t == ""))).isEmpty)).map
          (fun r => ((extract_ocr_data r).1.filter
            (fun t => !(t == "") && !(pyStrip t == ""))).map (fun t => some (pyStrip t))) := by
  intro results
  induction results with
  | nil => intro ctr; rfl
  | cons r rest ih =>
    intro ctr
    by_cases hr : (extract_ocr_data r).1 = []
    · rw [build_result_containers, if_neg (by simpa using hr), List.filter_cons,
        if_neg (by simp [hr])]
      exact ih ctr
    · rw [build_result_containers, if_pos (by simpa using hr)]
      have hnames := build_text_elements_names refs (extract_ocr_data r).2.2
        (extract_ocr_data r).2.1 osz psz (extract_ocr_data r).1 0 (ctr + 1)
      by_cases hk : ((extract_ocr_data r).1.filter
          (fun t => !(t == "") && !(pyStrip t == ""))) = []
      · have hempty : (build_text_elements refs (extract_ocr_data r).2.2
            (extract_ocr_data r).2.1 osz psz (extract_ocr_data r).1 0 (ctr + 1)).1 = [] := by
          have hless := hnames
          rw [hk] at hless
          exact List.map_eq_nil_iff.mp hless
        rw [if_pos (by rw [hempty]; rfl), List.filter_cons, if_neg (by simp [hk])]
        exact ih _
      · have hne : (build_text_elements refs (extract_ocr_data r).2.2
            (extract_ocr_data r).2.1 osz psz (extract_ocr_data r).1 0 (ctr + 1)).1 ≠ [] := by
          intro hcontra
          rw [hcontra] at hnames
          exact hk (List.map_eq_nil_iff.mp hnames.symm)
        rw [if_neg (by simpa [List.isEmpty_iff] using hne), List.filter_cons,
          if_pos (by simpa [List.isEmpty_iff] using hk)]
        rw [List.map_cons, List.map_cons]
        refine congrArg₂ List.cons ?_ (ih _)
        exact hnames

theorem build_result_containers_atoms (refs : ℕ → String) (osz psz : Option (ℕ × ℕ)) :
    ∀ (results : List OcrResult) (ctr : ℕ),
      ∀ c ∈ (build_result_containers refs osz psz results ctr).1,
        c.role = "generic" ∧ c.name = none ∧ (∃ n, c.ref = refs n) ∧
        ∀ el ∈ c.children, (∃ n, el.ref = refs n) ∧ el.role = "text" ∧ el.children = [] := by
  intro results
  induction results with
  | nil => intro ctr c hc; exact absurd hc (List.not_mem_nil c)
  | cons r rest ih =>
    intro ctr c hc
    by_cases hr : (extract_ocr_data r).1 = []
    · rw [build_result_containers, if_neg (by simpa using hr)] at hc
      exact ih ctr c hc
    · rw [build_result_containers, if_pos (by simpa using hr)] at hc
      by_cases hempty : (build_text_elements refs (extract_ocr_data r).2.2
          (extract_ocr_data r).2.1 osz psz (extract_ocr_data r).1 0 (ctr + 1)).1.isEmpty = true
      · rw [if_pos hempty] at hc
        exact ih _ c hc
      · rw [if_neg hempty] at hc
        rcases List.mem_cons.mp hc with hc | hc
        · subst hc
          refine ⟨rfl, rfl, ⟨ctr, rfl⟩, ?_⟩
          intro el hel
          exact build_text_elements_atoms refs _ _ osz psz _ 0 (ctr + 1) el hel
        · exact ih _ c hc

/-- C4 counterexample: the polygon branch of `generate_snapshot_format`
truncates each point to integers (line 278) before the rescaling call
(line 283), so the attached polygon is not the section-4.7 rescale of the
unit's first 4 points: for the fractional point `[3/2, 0]` with scale
`4/2 = 2` the code attaches `x = int(int(3/2) * 2) = 2` while rescaling the
point itself gives `int(3/2 * 2) = 3`. -/
theorem unit_geometry_pretruncation_cex :
    unit_geometry 0 none (some [[[3/2, 0], [0, 0], [0, 1], [1, 1]]])
        (some (4, 2)) (some (2, 2)) =
      some (.poly [[2, 0], [0, 0], [0, 1], [2, 1]]) ∧
    convert_polygon_to_original [[3/2, 0], [0, 0], [0, 1], [1, 1]] (4, 2) (2, 2) =
      [[3, 0], [0, 0], [0, 1], [2, 1]] ∧
    unit_geometry 0 none (some [[[3/2, 0], [0, 0], [0, 1], [1, 1]]])
        (some (4, 2)) (some (2, 2)) ≠
      some (.poly (convert_polygon_to_original [[3/2, 0], [0, 0], [0, 1], [1, 1]]
        (4, 2) (2, 2))) := by
  have e1 : pyInt (3 / 2) = 1 := by norm_num [pyInt]
  have e2 : pyInt 0 = 0 := by norm_num [pyInt]
  have e3 : pyInt 1 = 1 := by norm_num [pyInt]
  have hgeo : unit_geometry 0 none (some [[[3/2, 0], [0, 0], [0, 1], [1, 1]]])
      (some (4, 2)) (some (2, 2)) = some (.poly [[2, 0], [0, 0], [0, 1], [2, 1]]) := by
    simp only [unit_geometry, bbox_from_rec_boxes, bbox_from_dt_polys, polygon_coords_of,
      convert_polygon_to_original, List.take, List.filterMap_cons, List.filterMap_nil,
      List.getD, List.map_cons, List.map_nil]
    norm_num [pyInt]
  have hconv : convert_polygon_to_original [[3/2, 0], [0, 0], [0, 1], [1, 1]] (4, 2) (2, 2) =
      [[3, 0], [0, 0], [0, 1], [2, 1]] := by
    simp only [convert_polygon_to_original, List.map_cons, List.map_nil, List.getD]
    norm_num [pyInt]
  refine ⟨hgeo, hconv, ?_⟩
  rw [hgeo, hconv]
  intro h
  simp only [Option.some_inj, BBoxInfo.poly.injEq] at h
  exact absurd h (by decide)

/-- C4 (amended): per recognition unit, geometry is attached in this
priority order: if an axis-aligned box is available (`idx` within
`rec_boxes` and the entry has at least 4 coordinates) it is rescaled and
attached; otherwise, if a polygon with at least 4 well-formed points is
available, its first 4 points are truncated to integers and the truncated
points are then rescaled and attached as a polygon list; otherwise no
geometry is attached.  Every unit is processed totally and the document
structure (number of result containers) does not depend on the geometry
data, so malformed geometry for one unit never aborts the rest. -/
theorem unit_geometry_priority (idx : ℕ)
    (rec_boxes : Option (List (List ℚ))) (dt_polys : Option (List (List (List ℚ))))
    (osz psz : ℕ × ℕ) :
    (∀ boxes, rec_boxes = some boxes → idx < boxes.length →
      4 ≤ (boxes.getD idx []).length →
      unit_geometry idx rec_boxes dt_polys (some osz) (some psz) =
        some (.box (convert_bbox_to_original (boxes.getD idx []) osz psz))) ∧
    (∀ polys, dt_polys = some polys →
      bbox_from_rec_boxes idx rec_boxes (some osz) (some psz) = none →
      idx < polys.length → 4 ≤ (polys.getD idx []).length →
      (∀ p ∈ (polys.getD idx []).take 4, 2 ≤ p.length) →
      unit_geometry idx rec_boxes dt_polys (some osz) (some psz) =
        some (.poly (convert_polygon_to_original
          (((polys.getD idx []).take 4).map
            (fun p => [((pyInt (p.getD 0 0)) : ℚ), ((pyInt (p.getD 1 0)) : ℚ)])) osz psz))) ∧
    (bbox_from_rec_boxes idx rec_boxes (some osz) (some psz) = none →
      bbox_from_dt_polys idx dt_polys (some osz) (some psz) = none →
      unit_geometry idx rec_boxes dt_polys (some osz) (some psz) = none) ∧
    (∀ (results : List OcrResult) (ip lang : String) (o p : Option (ℕ × ℕ))
        (refs : ℕ → String),
      (generate_snapshot_format results ip lang o p refs).children.length =
        1 + (results.filter (fun r => !((extract_ocr_data r).1.filter
            (fun t => !(t == "") && !(pyStrip t == ""))).isEmpty)).length) := by
  refine ⟨?_, ?_, ?_, ?_⟩
  · intro boxes hb h1 h2
    subst hb
    simp only [unit_geometry, bbox_from_rec_boxes, if_pos h1, if_pos h2]
  · intro polys hd hnone h1 h2 hwf
    subst hd
    rw [unit_geometry, hnone]
    have hcoords : polygon_coords_of (polys.getD idx []) =
        ((polys.getD idx []).take 4).map
          (fun p => [pyInt (p.getD 0 0), pyInt (p.getD 1 0)]) :=
      filterMap_if_all (fun p : List ℚ => 2 ≤ p.length)
        (fun p => [pyInt (p.getD 0 0), pyInt (p.getD 1 0)])
        ((polys.getD idx []).take 4) hwf
    have hlen : (((polys.getD idx []).take 4).map
        (fun p => [pyInt (p.getD 0 0), pyInt (p.getD 1 0)])).length = 4 := by
      rw [List.length_map, List.length_take]
      omega
    simp only [bbox_from_dt_polys, if_pos h1, if_pos h2, hcoords, hlen, if_pos rfl]
    rw [List.map_map]
    rfl
  · intro hnone1 hnone2
    rw [unit_geometry, hnone1, hnone2]
  · intro results ip lang o p refs
    have h := congrArg List.length (build_result_containers_shape refs o p results 4)
    simp only [List.length_map] at h
    simp only [generate_snapshot_format, SnapshotNode.children, List.length_cons]
    omega

theorem unit_geometry_priority_witness :
    unit_geometry 0 (some [[1, 2, 3, 4]]) none (some (4, 2)) (some (2, 2)) =
      some (.box (convert_bbox_to_original (([[1, 2, 3, 4]] : List (List ℚ)).getD 0 [])
        (4, 2) (2, 2))) :=
  (unit_geometry_priority 0 (some [[1, 2, 3, 4]]) none (4, 2) (2, 2)).1
    [[1, 2, 3, 4]] rfl (by decide) (by decide)

theorem is_valid_ref_generate (chosen : List Char) (hlen : chosen.length = 11)
    (hch : ∀ c ∈ chosen, c.isLower = true ∨ c.isDigit = true) :
    is_valid_ref (generate_ref chosen) = true := by
  have hdata : (generate_ref chosen).data = ['r', 'e', 'f', '-'] ++ chosen := by
    rw [generate_ref, String.data_append]
  rw [is_valid_ref, hdata]
  have h1 : (['r', 'e', 'f', '-'] ++ chosen).length = 15 := by simp [hlen]
  have h2 : (['r', 'e', 'f', '-'] ++ chosen).take 4 = ['r', 'e', 'f', '-'] :=
    List.take_left' rfl
  have h3 : (['r', 'e', 'f', '-'] ++ chosen).drop 4 = chosen :=
    List.drop_left' rfl
  rw [h1, h2, h3]
  have h4 : chosen.all (fun c => c.isLower || c.isDigit) = true := by
    rw [List.all_eq_true]
    intro c hc
    rcases hch c hc with h | h <;> simp [h]
  rw [h4]
  rfl

theorem valid_of_supply (refs : ℕ → String)
    (href : ∀ n, ∃ chosen : List Char, chosen.length = 11 ∧
      (∀ c ∈ chosen, c.isLower = true ∨ c.isDigit = true) ∧ refs n = generate_ref chosen)
    (n : ℕ) : is_valid_ref (refs n) = true := by
  obtain ⟨cs, hl, hc, heq⟩ := href n
  rw [heq]
  exact is_valid_ref_generate cs hl hc

/-- C5: the snapshot tree is a single root container node named from the
source image's base filename; its first child is a metadata container with
exactly two text leaves `Source Image: <path>` and `Language: <code>`,
followed by one container per page with at least one non-empty text unit,
holding one text leaf per such unit whose name is the trimmed text string;
and, whenever the ref supply is produced by `generate_ref` from 11
characters chosen among the lowercase letters and digits (as
`random.choices` does), every node's reference id matches the fixed literal
prefix `ref-` followed by 11 lowercase-alphanumeric characters. -/
theorem generate_snapshot_structure (ocr_results : List OcrResult)
    (image_path language : String) (osz psz : Option (ℕ × ℕ)) (refs : ℕ → String)
    (href : ∀ n, ∃ chosen : List Char, chosen.length = 11 ∧
      (∀ c ∈ chosen, c.isLower = true ∨ c.isDigit = true) ∧ refs n = generate_ref chosen) :
    (generate_snapshot_format ocr_results image_path language osz psz refs).role =
      "generic" ∧
    (generate_snapshot_format ocr_results image_path language osz psz refs).name =
      some ("OCR Result: " ++ pathName image_path) ∧
    (∃ containers,
      (generate_snapshot_format ocr_results image_path language osz psz refs).children =
        SnapshotNode.mk "generic" (refs 1) none none
          [SnapshotNode.mk "text" (refs 2) (some ("Source Image: " ++ image_path)) none [],
           SnapshotNode.mk "text" (refs 3) (some ("Language: " ++ language)) none []] ::
          containers ∧
      containers.map (fun c => c.children.map SnapshotNode.name) =
        (ocr_results.filter (fun r => !((extract_ocr_data r).1.filter
            (fun t => !(t == "") && !(pyStrip t == ""))).isEmpty)).map
          (fun r => ((extract_ocr_data r).1.filter
            (fun t => !(t == "") && !(pyStrip t == ""))).map (fun t => some (pyStrip t))) ∧
      ∀ c ∈ containers, c.role = "generic" ∧ c.name = none ∧
        ∀ el ∈ c.children, el.role = "text") ∧
    (is_valid_ref
        (generate_snapshot_format ocr_results image_path language osz psz refs).ref = true ∧
      ∀ c ∈ (generate_snapshot_format ocr_results image_path language osz psz refs).children,
        is_valid_ref c.ref = true ∧ ∀ el ∈ c.children, is_valid_ref el.ref = true) := by
  refine ⟨rfl, rfl,
    ⟨(build_result_containers refs osz psz ocr_results 4).1, rfl,
      build_result_containers_shape refs osz psz ocr_results 4, ?_⟩, ?_, ?_⟩
  · intro c hc
    obtain ⟨h1, h2, _, h4⟩ := build_result_containers_atoms refs osz psz ocr_results 4 c hc
    exact ⟨h1, h2, fun el hel => (h4 el hel).2.1⟩
  · exact valid_of_supply refs href 0
  · intro c hc
    rcases List.mem_cons.mp hc with hc | hc
    · subst hc
      refine ⟨valid_of_supply refs href 1, ?_⟩
      intro el hel
      rcases List.mem_cons.mp hel with hel | hel
      · subst hel; exact valid_of_supply refs href 2
      · rcases List.mem_cons.mp hel with hel | hel
        · subst hel; exact valid_of_supply refs href 3
        · exact absurd hel (List.not_mem_nil el)
    · obtain ⟨_, _, ⟨n, hrefn⟩, h4⟩ :=
        build_result_containers_atoms refs osz psz ocr_results 4 c hc
      refine ⟨by rw [hrefn]; exact valid_of_supply refs href n, ?_⟩
      intro el hel
      obtain ⟨⟨m, hrefm⟩, _, _⟩ := h4 el hel
      rw [hrefm]
      exact valid_of_supply refs href m

/-- A concrete deterministic ref supply for instantiating the snapshot
structure theorem. -/
def demo_refs : ℕ → String := fun _ => generate_ref (List.replicate 11 'a')

theorem generate_snapshot_structure_witness :
    (generate_snapshot_format [⟨.listv ["A", "B"], none, none⟩] "img.png" "en"
        none none demo_refs).name = some ("OCR Result: " ++ pathName "img.png") ∧
    is_valid_ref (generate_snapshot_format [⟨.listv ["A", "B"], none, none⟩] "img.png" "en"
        none none demo_refs).ref = true := by
  have h := generate_snapshot_structure [⟨.listv ["A", "B"], none, none⟩] "img.png" "en"
    none none demo_refs
    (fun n => ⟨List.replicate 11 'a', by decide, by decide, rfl⟩)
  exact ⟨h.2.1, h.2.2.2.1⟩

/-- The four Python exception classes observable from `handle_call_tool`. -/
inductive PyError where
  | valueError (m : String)
  | fileNotFoundError (m : String)
  | runtimeError (m : String)
  | otherError (m : String)
deriving DecidableEq

/-- Python `str(e)` on a modelled exception. -/
def PyError.msg : PyError → String
  | .valueError m => m
  | .fileNotFoundError m => m
  | .runtimeError m => m
  | .otherError m => m

/-- A JSON value as far as the handler's type checks observe it. -/
inductive PyVal where
  | str (s : String)
  | nonstr
deriving DecidableEq

/-- The `arguments` dict of a `tools/call` request, restricted to the two
keys the handler reads. -/
structure ToolArgs where
  image_path : Option PyVal
  language : Option PyVal
deriving DecidableEq

/-- Outcomes of the external effects performed by the `ocr_image` handler,
in program order.  `refs` is the `generate_ref` supply used by the snapshot
builder. -/
structure HandlerEnv where
  pathExists : Bool
  pathIsFile : Bool
  openOriginal : Except PyError (ℕ × ℕ)
  preprocessResult : Except PyError String
  preprocessedExists : Bool
  openPreprocessed : Except PyError (ℕ × ℕ)
  getOcr : Except PyError Unit
  predictResult : Except PyError (List OcrResult)
  unlinkResult : Except PyError Unit
  refs : ℕ → String

/-- Observable side effects of one `ocr_image` call. -/
structure HandlerEffects where
  cleanupRan : Bool
  tempDeleted : Bool
  markdownWritten : Option (List String)
  snapshotWritten : Option SnapshotNode

def noEffects : HandlerEffects :=
  { cleanupRan := false, tempDeleted := false, markdownWritten := none,
    snapshotWritten := none }

/-- mcp_server.py lines 471-478: read, type-check and normalise the
`language` argument (default `"ch"`, lower-cased and stripped, `"ch"` again
if empty). -/
def normalize_language (v : Option PyVal) : Except PyError String :=
  match v.getD (.str "ch") with
  | .nonstr => .error (.valueError "language must be a string")
  | .str l =>
    let language := if l ≠ "" then pyStrip (pyLower l) else "ch"
    .ok (if language = "" then "ch" else language)

/-- mcp_server.py lines 480-577: the body of the `try` block of the
`ocr_image` handler.  The inner `try`/`finally` around the OCR invocation
(lines 513-526) becomes: compute the OCR outcome, then run the cleanup
unconditionally (its own failure swallowed), then propagate the outcome. -/
def ocr_image_body (image_path language : String) (env : HandlerEnv) :
    Except PyError (List String) × HandlerEffects :=
  if !env.pathExists then
    (.error (.fileNotFoundError ("Image file not found: " ++ image_path)), noEffects)
  else if !env.pathIsFile then
    (.error (.valueError ("Path is not a file: " ++ image_path)), noEffects)
  else
    match env.openOriginal with
    | .error e => (.error e, noEffects)
    | .ok original_size =>
      match env.preprocessResult with
      | .error e => (.error e, noEffects)
      | .ok _preprocessed_path =>
        let preprocessed_size :=
          if env.preprocessedExists then
            match env.openPreprocessed with
            | .ok sz => sz
            | .error _ => original_size
          else original_size
        let ocr_outcome : Except PyError (List OcrResult) :=
          match env.getOcr with
          | .error e => .error e
          | .ok _ => env.predictResult
        let tempDeleted := env.preprocessedExists &&
          (match env.unlinkResult with | .ok _ => true | .error _ => false)
        match ocr_outcome with
        | .error e =>
          (.error e,
           { cleanupRan := true, tempDeleted := tempDeleted,
             markdownWritten := none, snapshotWritten := none })
        | .ok result =>
          (.ok [image_path ++ ".md", image_path ++ ".snapshot.log"],
           { cleanupRan := true, tempDeleted := tempDeleted,
             markdownWritten := some (mcp_markdown_lines result image_path language),
             snapshotWritten := some (generate_snapshot_format result image_path language
               (some original_size) (some preprocessed_size) env.refs) })

/-- mcp_server.py lines 471-582: the part of the `ocr_image` handler after
the `image_path` type check: normalise the language, run the `try` block,
and re-raise any failure inside it as a `RuntimeError` carrying the
offending image path (lines 579-582). -/
def dispatch_ocr_image (image_path : String) (langv : Option PyVal) (env : HandlerEnv) :
    Except PyError (List String) × HandlerEffects :=
  match normalize_language langv with
  | .error e => (.error e, noEffects)
  | .ok language =>
    let body := ocr_image_body image_path language env
    match body.1 with
    | .ok v => (.ok v, body.2)
    | .error e =>
      (.error (.runtimeError ("Error processing image " ++ image_path ++ ": " ++
        e.msg)), body.2)

/-- mcp_server.py lines 458-582: the `ocr_image` tool handler. -/
def handle_call_tool (name : String) (arguments : Option ToolArgs) (env : HandlerEnv) :
    Except PyError (List String) × HandlerEffects :=
  if name ≠ "ocr_image" then
    (.error (.valueError ("Unknown tool: " ++ name)), noEffects)
  else
    match arguments with
    | none => (.error (.valueError "Missing required argument: image_path"), noEffects)
    | some args =>
      match args.image_path with
      | none => (.error (.valueError "Missing required argument: image_path"), noEffects)
      | some .nonstr => (.error (.valueError "image_path must be a string"), noEffects)
      | some (.str image_path) => dispatch_ocr_image image_path args.language env

/-- mcp_server.py line 452: the `required` list of the declared input
schema of the `ocr_image` tool. -/
def ocr_image_tool_required : List String := ["image_path", "language"]

theorem ocr_image_body_fst_unlink (ip lang : String) (env : HandlerEnv)
    (u : Except PyError Unit) :
    (ocr_image_body ip lang { env with unlinkResult := u }).1 =
    (ocr_image_body ip lang env).1 := by
  rcases env with ⟨pe, pif, oo, pr, pex, op, go, pred, ul, refs⟩
  cases pe <;> cases pif <;> cases oo <;> cases pr <;> cases pex <;> cases op <;>
    cases go <;> cases pred <;> rfl

theorem dispatch_ocr_image_fst_unlink (ip : String) (langv : Option PyVal)
    (env : HandlerEnv) (u₁ u₂ : Except PyError Unit) :
    (dispatch_ocr_image ip langv { env with unlinkResult := u₁ }).1 =
    (dispatch_ocr_image ip langv { env with unlinkResult := u₂ }).1 := by
  unfold dispatch_ocr_image
  cases hl : normalize_language langv with
  | error e => rfl
  | ok lang =>
    have heq : (ocr_image_body ip lang { env with unlinkResult := u₁ }).1 =
        (ocr_image_body ip lang { env with unlinkResult := u₂ }).1 :=
      (ocr_image_body_fst_unlink ip lang env u₁).trans
        (ocr_image_body_fst_unlink ip lang env u₂).symm
    simp only []
    rw [heq]
    cases hbb : (ocr_image_body ip lang { env with unlinkResult := u₂ }).1 with
    | ok v => rfl
    | error e => rfl

theorem handle_call_tool_fst_unlink (name : String) (args : Option ToolArgs)
    (env : HandlerEnv) (u₁ u₂ : Except PyError Unit) :
    (handle_call_tool name args { env with unlinkResult := u₁ }).1 =
    (handle_call_tool name args { env with unlinkResult := u₂ }).1 := by
  unfold handle_call_tool
  by_cases hn : name ≠ "ocr_image"
  · rw [if_pos hn, if_pos hn]
  · rw [if_neg hn, if_neg hn]
    cases args with
    | none => rfl
    | some a =>
      obtain ⟨aip, alang⟩ := a
      cases aip with
      | none => rfl
      | some v =>
        cases v with
        | nonstr => rfl
        | str ip => exact dispatch_ocr_image_fst_unlink ip alang env u₁ u₂

/-- C6: once an `ocr_image` request reaches the OCR invocation, the
temp-file cleanup block runs on every exit path (whether engine
initialisation or inference succeed or fail), the temp file is deleted
whenever it exists and unlink succeeds, and a failing deletion is
swallowed: the value or exception returned by the handler is entirely
independent of the unlink outcome. -/
theorem temp_file_cleanup (image_path language : String) (env : HandlerEnv)
    (h1 : env.pathExists = true) (h2 : env.pathIsFile = true)
    (osz : ℕ × ℕ) (h3 : env.openOriginal = .ok osz)
    (p : String) (h4 : env.preprocessResult = .ok p) :
    (ocr_image_body image_path language env).2.cleanupRan = true ∧
    (env.preprocessedExists = true → env.unlinkResult = .ok () →
      (ocr_image_body image_path language env).2.tempDeleted = true) ∧
    (∀ (name : String) (args : Option ToolArgs) (u₁ u₂ : Except PyError Unit),
      (handle_call_tool name args { env with unlinkResult := u₁ }).1 =
      (handle_call_tool name args { env with unlinkResult := u₂ }).1) := by
  refine ⟨?_, ?_, fun name args u₁ u₂ => handle_call_tool_fst_unlink name args env u₁ u₂⟩
  · cases hg : env.getOcr with
    | error e => simp [ocr_image_body, h1, h2, h3, h4, hg]
    | ok u =>
      cases hp : env.predictResult with
      | error e => simp [ocr_image_body, h1, h2, h3, h4, hg, hp]
      | ok r => simp [ocr_image_body, h1, h2, h3, h4, hg, hp]
  · intro h5 h6
    cases hg : env.getOcr with
    | error e => simp [ocr_image_body, h1, h2, h3, h4, h5, h6, hg]
    | ok u =>
      cases hp : env.predictResult with
      | error e => simp [ocr_image_body, h1, h2, h3, h4, h5, h6, hg, hp]
      | ok r => simp [ocr_image_body, h1, h2, h3, h4, h5, h6, hg, hp]

/-- A concrete environment in which every external effect succeeds. -/
def demo_env : HandlerEnv :=
  { pathExists := true, pathIsFile := true, openOriginal := .ok (100, 100),
    preprocessResult := .ok "/tmp/pre.jpg", preprocessedExists := true,
    openPreprocessed := .ok (100, 100), getOcr := .ok (),
    predictResult := .ok [⟨.listv ["Hello"], none, none⟩],
    unlinkResult := .ok (), refs := demo_refs }

theorem temp_file_cleanup_witness :
    (ocr_image_body "img.png" "ch" demo_env).2.cleanupRan = true ∧
    (ocr_image_body "img.png" "ch" demo_env).2.tempDeleted = true := by
  have h := temp_file_cleanup "img.png" "ch" demo_env rfl rfl (100, 100) rfl
    "/tmp/pre.jpg" rfl
  exact ⟨h.1, h.2.1 rfl rfl⟩

theorem dispatch_ocr_image_ok (ip : String) (langv : Option PyVal) (lang : String)
    (h : normalize_language langv = .ok lang) (env : HandlerEnv) :
    dispatch_ocr_image ip langv env =
      match (ocr_image_body ip lang env).1 with
      | .ok v => (.ok v, (ocr_image_body ip lang env).2)
      | .error e =>
        (.error (.runtimeError ("Error processing image " ++ ip ++ ": " ++ e.msg)),
          (ocr_image_body ip lang env).2) := by
  unfold dispatch_ocr_image
  rw [h]

/-- C7: a call whose `language` argument is absent, or empty after
trimming, proceeds with language code `"ch"` instead of failing; a provided
language string is lower-cased (and stripped) before use; and the declared
input schema nevertheless lists `language` among the required parameters. -/
theorem language_defaulting :
    normalize_language none = .ok "ch" ∧
    (∀ l, pyStrip (pyLower l) = "" → normalize_language (some (.str l)) = .ok "ch") ∧
    (∀ l, l ≠ "" → pyStrip (pyLower l) ≠ "" →
      normalize_language (some (.str l)) = .ok (pyStrip (pyLower l))) ∧
    "language" ∈ ocr_image_tool_required ∧
    (∀ (ip : Option PyVal) (env : HandlerEnv),
      handle_call_tool "ocr_image" (some { image_path := ip, language := none }) env =
      handle_call_tool "ocr_image" (some { image_path := ip, language := some (.str "ch") })
        env) := by
  refine ⟨rfl, ?_, ?_, by decide, ?_⟩
  · intro l h
    by_cases hl : l = ""
    · subst hl; rfl
    · simp [normalize_language, hl, h]
  · intro l h1 h2
    simp [normalize_language, h1, h2]
  · intro ip env
    cases ip with
    | none => rfl
    | some v =>
      cases v with
      | nonstr => rfl
      | str s =>
        show dispatch_ocr_image s none env = dispatch_ocr_image s (some (.str "ch")) env
        rw [dispatch_ocr_image_ok s none "ch" rfl env,
          dispatch_ocr_image_ok s (some (.str "ch")) "ch" rfl env]

theorem language_defaulting_witness :
    normalize_language (some (.str " EN ")) = .ok (pyStrip (pyLower " EN ")) :=
  language_defaulting.2.2.1 " EN " (by decide) (by decide)

/-- C9: once the argument type checks pass, every failure raised inside the
handler body, including the file-not-found and path-is-not-a-file
validation errors, is surfaced to the MCP client as a `RuntimeError` whose
message is `Error processing image <path>: <original message>`, so the
client never observes the original exception type. -/
theorem handler_errors_wrapped (ip : String) (langv : Option PyVal) (lang : String)
    (env : HandlerEnv) (hargs : normalize_language langv = .ok lang) :
    (∀ e, (handle_call_tool "ocr_image"
        (some { image_path := some (.str ip), language := langv }) env).1 = .error e →
      ∃ m, e = .runtimeError ("Error processing image " ++ ip ++ ": " ++ m)) ∧
    (env.pathExists = false →
      (handle_call_tool "ocr_image"
        (some { image_path := some (.str ip), language := langv }) env).1 =
        .error (.runtimeError ("Error processing image " ++ ip ++ ": " ++
          ("Image file not found: " ++ ip)))) := by
  have hred : handle_call_tool "ocr_image"
      (some { image_path := some (.str ip), language := langv }) env =
      dispatch_ocr_image ip langv env := rfl
  constructor
  · intro e he
    rw [hred, dispatch_ocr_image_ok ip langv lang hargs env] at he
    cases hb : (ocr_image_body ip lang env).1 with
    | ok v =>
      rw [hb] at he
      exact absurd he (by simp)
    | error e2 =>
      rw [hb] at he
      exact ⟨e2.msg, by simpa using he.symm⟩
  · intro hpe
    rw [hred, dispatch_ocr_image_ok ip langv lang hargs env]
    have hb : (ocr_image_body ip lang env).1 =
        .error (.fileNotFoundError ("Image file not found: " ++ ip)) := by
      simp [ocr_image_body, hpe]
    rw [hb]
    rfl

/-- The all-success environment with the image path missing on disk. -/
def demo_env_missing : HandlerEnv := { demo_env with pathExists := false }

theorem handler_errors_wrapped_witness :
    (handle_call_tool "ocr_image"
        (some { image_path := some (.str "img.png"), language := none }) demo_env_missing).1 =
      .error (.runtimeError ("Error processing image " ++ "img.png" ++ ": " ++
        ("Image file not found: " ++ "img.png"))) :=
  (handler_errors_wrapped "img.png" none "ch" demo_env_missing rfl).2 rfl

/-- C10: if, after preprocessing, the preprocessed file is missing or
cannot be opened when its dimensions are measured, the handler silently
substitutes the original dimensions, so the snapshot is generated with
`preprocessed_size = original_size` and the coordinate rescaling becomes
the identity mapping (integer coordinates pass through unchanged) for that
request, even though OCR actually ran on the preprocessed image. -/
theorem preprocessed_size_fallback (ip lang : String) (env : HandlerEnv)
    (osz : ℕ × ℕ) (result : List OcrResult)
    (h1 : env.pathExists = true) (h2 : env.pathIsFile = true)
    (h3 : env.openOriginal = .ok osz) (p : String) (h4 : env.preprocessResult = .ok p)
    (h5 : env.preprocessedExists = false ∨ ∃ e, env.openPreprocessed = .error e)
    (h6 : env.getOcr = .ok ()) (h7 : env.predictResult = .ok result) :
    (ocr_image_body ip lang env).2.snapshotWritten =
      some (generate_snapshot_format result ip lang (some osz) (some osz) env.refs) ∧
    (∀ a b c d : ℤ,
      convert_bbox_to_original [(a : ℚ), (b : ℚ), (c : ℚ), (d : ℚ)] osz osz =
        { x_min := a, y_min := b, x_max := c, y_max := d }) ∧
    (∀ pts : List (ℤ × ℤ), convert_polygon_to_original
        (pts.map (fun q => [(q.1 : ℚ), (q.2 : ℚ)])) osz osz =
      pts.map (fun q => [q.1, q.2])) := by
  refine ⟨?_, ?_, ?_⟩
  · rcases h5 with h5 | ⟨e, h5⟩
    · simp [ocr_image_body, h1, h2, h3, h4, h5, h6, h7]
    · cases hex : env.preprocessedExists with
      | true => simp [ocr_image_body, h1, h2, h3, h4, h5, h6, h7, hex]
      | false => simp [ocr_image_body, h1, h2, h3, h4, h6, h7, hex]
  · intro a b c d
    simp [convert_bbox_to_original, pyInt_intCast]
  · intro pts
    rw [convert_polygon_to_original, if_pos rfl, List.map_map]
    apply List.map_congr_left
    intro q _
    simp [pyInt_intCast]

/-- The all-success environment with the preprocessed file missing at
measurement time. -/
def demo_env_fallback : HandlerEnv := { demo_env with preprocessedExists := false }

theorem preprocessed_size_fallback_witness :
    (ocr_image_body "img.png" "ch" demo_env_fallback).2.snapshotWritten =
      some (generate_snapshot_format [⟨.listv ["Hello"], none, none⟩] "img.png" "ch"
        (some (100, 100)) (some (100, 100)) demo_env_fallback.refs) :=
  (preprocessed_size_fallback "img.png" "ch" demo_env_fallback (100, 100)
    [⟨.listv ["Hello"], none, none⟩] rfl rfl rfl "/tmp/pre.jpg" rfl (Or.inl rfl)
    rfl rfl).1

/-- main.py lines 49-96: the PaddleOCR constructor kwargs assembled by
`image_to_markdown`. -/
structure OcrKwargs where
  lang : String
  use_doc_orientation_classify : Bool
  use_doc_unwarping : Bool
  ocr_version : String
  use_textline_orientation : Bool
  text_det_limit_side_len : ℕ
  device : Option String
  enable_hpi : Bool
deriving DecidableEq

def build_ocr_kwargs (fast_mode use_gpu : Bool) (ocr_version : Option String)
    (max_image_size : Option ℕ) (enable_hpi : Bool) : OcrKwargs :=
  { lang := "ch"
    use_doc_orientation_classify := false
    use_doc_unwarping := false
    ocr_version := ocr_version.getD "PP-OCRv4"
    use_textline_orientation := if fast_mode then false else true
    text_det_limit_side_len := max_image_size.getD 640
    device := if use_gpu then some "gpu:0" else none
    enable_hpi := enable_hpi }

/-- main.py lines 121-126 (also 131-136 and 145-150): the dedicated HPI
error message naming the remediation command. -/
def hpi_error_message : String :=
  "High-Performance Inference (HPI) requested but dependencies not installed. Please install HPI dependencies first:\n  paddleocr install_hpi_deps cpu   # for CPU\n  paddleocr install_hpi_deps gpu   # for GPU"

/-- main.py line 107 etc.: the substring test `'pat' in str(e).lower()`. -/
def error_mentions (e pat : String) : Bool := py_contains (pyLower e) pat

/-- main.py line 107: is the initialisation failure GPU-specific. -/
def gpu_related_error (e : String) : Bool :=
  error_mentions e "cuda" || error_mentions e "gpu" || error_mentions e "device"

/-- main.py lines 98-151: engine initialisation with the CPU fallback.
`paddle_init` stands for the `PaddleOCR(**kwargs)` constructor; besides the
outcome, the list of attempted kwargs is returned in call order.  The
fallback deletes the `device` key and re-sets it to `"cpu"` (lines
112-115), which nets to replacing it. -/
def init_ocr_with_fallback (use_gpu enable_hpi : Bool) (kwargs : OcrKwargs)
    (paddle_init : OcrKwargs → Except String Unit) :
    Except PyError Unit × List OcrKwargs :=
  if use_gpu then
    match paddle_init kwargs with
    | .ok _ => (.ok (), [kwargs])
    | .error e =>
      if gpu_related_error e then
        let cpu_kwargs := { kwargs with device := some "cpu" }
        match paddle_init cpu_kwargs with
        | .ok _ => (.ok (), [kwargs, cpu_kwargs])
        | .error cpu_e =>
          if enable_hpi && error_mentions cpu_e "hpi" then
            (.error (.runtimeError hpi_error_message), [kwargs, cpu_kwargs])
          else (.error (.otherError cpu_e), [kwargs, cpu_kwargs])
      else
        if enable_hpi && error_mentions e "hpi" then
          (.error (.runtimeError hpi_error_message), [kwargs])
        else (.error (.otherError e), [kwargs])
  else
    match paddle_init kwargs with
    | .ok _ => (.ok (), [kwargs])
    | .error e =>
      if enable_hpi && error_mentions e "hpi" then
        (.error (.runtimeError hpi_error_message), [kwargs])
      else (.error (.otherError e), [kwargs])

set_option maxRecDepth 10000 in
/-- C8 counterexample: with GPU requested and initialisation failing with a
message that does not mention cuda/gpu/device, the CLI makes no CPU
fallback attempt at all — the single GPU attempt's failure immediately
propagates — contradicting "exactly one CPU fallback attempt is made
before the failure becomes permanent" for such runs. -/
theorem init_no_cpu_retry_cex :
    (init_ocr_with_fallback true false (build_ocr_kwargs true true none none false)
        (fun _ => .error "model files missing")).2 =
      [build_ocr_kwargs true true none none false] ∧
    (init_ocr_with_fallback true false (build_ocr_kwargs true true none none false)
        (fun _ => .error "model files missing")).1 =
      .error (.otherError "model files missing") ∧
    gpu_related_error "model files missing" = false :=
  ⟨by rfl, by rfl, by decide⟩

set_option maxRecDepth 40000 in
/-- C8 (amended): in the CLI path with GPU requested, an initialisation
failure whose message mentions cuda, gpu or device (case-insensitively)
triggers exactly one CPU fallback attempt, with the GPU device option
replaced by `"cpu"`, before the failure becomes permanent; a GPU-path
failure without those markers propagates with no retry; a failure
mentioning the missing HPI dependency (with HPI enabled) is replaced by
the dedicated message naming the remediation command
`paddleocr install_hpi_deps`; all other failures propagate unchanged. -/
theorem init_fallback_spec (kwargs : OcrKwargs) (enable_hpi : Bool)
    (paddle_init : OcrKwargs → Except String Unit) :
    (∀ e, paddle_init kwargs = .error e → gpu_related_error e = true →
      (init_ocr_with_fallback true enable_hpi kwargs paddle_init).2 =
        [kwargs, { kwargs with device := some "cpu" }] ∧
      (paddle_init { kwargs with device := some "cpu" } = .ok () →
        (init_ocr_with_fallback true enable_hpi kwargs paddle_init).1 = .ok ()) ∧
      (∀ ce, paddle_init { kwargs with device := some "cpu" } = .error ce →
        ((enable_hpi && error_mentions ce "hpi") = true →
          (init_ocr_with_fallback true enable_hpi kwargs paddle_init).1 =
            .error (.runtimeError hpi_error_message)) ∧
        ((enable_hpi && error_mentions ce "hpi") = false →
          (init_ocr_with_fallback true enable_hpi kwargs paddle_init).1 =
            .error (.otherError ce)))) ∧
    (∀ e, paddle_init kwargs = .error e → gpu_related_error e = false →
      (init_ocr_with_fallback true enable_hpi kwargs paddle_init).2 = [kwargs] ∧
      ((enable_hpi && error_mentions e "hpi") = true →
        (init_ocr_with_fallback true enable_hpi kwargs paddle_init).1 =
          .error (.runtimeError hpi_error_message)) ∧
      ((enable_hpi && error_mentions e "hpi") = false →
        (init_ocr_with_fallback true enable_hpi kwargs paddle_init).1 =
          .error (.otherError e))) ∧
    (paddle_init kwargs = .ok () →
      (init_ocr_with_fallback true enable_hpi kwargs paddle_init).2 = [kwargs] ∧
      (init_ocr_with_fallback true enable_hpi kwargs paddle_init).1 = .ok ()) ∧
    py_contains hpi_error_message "paddleocr install_hpi_deps" = true := by
  refine ⟨?_, ?_, ?_, by decide⟩
  · intro e he hgr
    refine ⟨?_, ?_, ?_⟩
    · cases hc : paddle_init { kwargs with device := some "cpu" } with
      | ok u => simp [init_ocr_with_fallback, he, hgr, hc]
      | error ce =>
        by_cases hh : (enable_hpi && error_mentions ce "hpi") = true
        · simp [init_ocr_with_fallback, he, hgr, hc, hh]
        · simp [init_ocr_with_fallback, he, hgr, hc, hh]
    · intro hok
      simp [init_ocr_with_fallback, he, hgr, hok]
    · intro ce hce
      constructor
      · intro hh
        simp [init_ocr_with_fallback, he, hgr, hce, hh]
      · intro hh
        simp [init_ocr_with_fallback, he, hgr, hce, hh]
  · intro e he hgr
    refine ⟨?_, ?_, ?_⟩
    · by_cases hh : (enable_hpi && error_mentions e "hpi") = true
      · simp [init_ocr_with_fallback, he, hgr, hh]
      · simp [init_ocr_with_fallback, he, hgr, hh]
    · intro hh
      simp [init_ocr_with_fallback, he, hgr, hh]
    · intro hh
      simp [init_ocr_with_fallback, he, hgr, hh]
  · intro hok
    exact ⟨by simp [init_ocr_with_fallback, hok], by simp [init_ocr_with_fallback, hok]⟩

theorem init_fallback_spec_witness :
    (init_ocr_with_fallback true false (build_ocr_kwargs true true none none false)
        (fun k => if k.device == some "cpu" then .ok () else .error "cuda driver failure")).2 =
      [build_ocr_kwargs true true none none false,
       { build_ocr_kwargs true true none none false with device := some "cpu" }] ∧
    (init_ocr_with_fallback true false (build_ocr_kwargs true true none none false)
        (fun k => if k.device == some "cpu" then .ok () else .error "cuda driver failure")).1 =
      .ok () := by
  have h := (init_fallback_spec (build_ocr_kwargs true true none none false) false
    (fun k => if k.device == some "cpu" then .ok () else .error "cuda driver failure")).1
    "cuda driver failure" (by rfl) (by decide)
  exact ⟨h.1, h.2.1 (by rfl)⟩
